import Mathlib

/-!
Shallow embedding of the GEDCOM parser benchmark harness
(`scripts/parser_benchmark.py` and `scripts/parser_benchmark_php.py`).

Python floats are modelled as rationals (`ℚ`), Python dictionaries with
optional keys as structures of `Option` fields, and the outcome of one
`subprocess.run` call as an explicit `ProcOutcome` value.  `json.loads`
is passed in as an explicit function `String → Except String Result`
(success = the decoded dictionary, error = the `JSONDecodeError` text).
-/

namespace ParserBenchmark

/-- The normalized result dictionary produced by one runner invocation.
Keys that a given construction site does not write are `none`
(mirroring absent keys of the Python dict). -/
structure Result where
  success : Bool
  duration_ms : Option ℚ := none
  duration_ns : Option ℤ := none
  error : Option String := none
  individuals : Option ℕ := none
  families : Option ℕ := none
  total_elements : Option ℕ := none
  errors : Option ℕ := none
deriving Repr, DecidableEq

/-- Outcome of one `subprocess.run(..., timeout=300)` call:
the call raises `TimeoutExpired`, raises some other exception (modelled by
its `str`), or completes with a return code, stdout and stderr. -/
inductive ProcOutcome where
  | timeout
  | exc (msg : String)
  | done (returncode : ℤ) (stdout stderr : String)
deriving Repr, DecidableEq

/-- Python `int()` on a float: truncation toward zero. -/
def pyInt (q : ℚ) : ℤ := if 0 ≤ q then q.floor else q.ceil

/-- Statistics extracted by `benchmark_python_parser` from the parsed
element list on the success path. -/
structure PyParseStats where
  individuals : ℕ
  families : ℕ
  total_elements : ℕ
deriving Repr, DecidableEq

/-- `benchmark_python_parser` (parser_benchmark.py lines 105-139).
The in-process run of `parser.parse_file` either succeeds, yielding the
element statistics, or raises an exception with text `msg`
(`outcome`), and `delta_ms` is the measured
`(time.perf_counter() - start) * 1000`. -/
def benchmarkPythonParser (outcome : Except String PyParseStats) (delta_ms : ℚ) :
    Result :=
  match outcome with
  | .ok stats =>
      { success := true
        duration_ms := some delta_ms
        duration_ns := some (pyInt (delta_ms * 1000000))
        individuals := some stats.individuals
        families := some stats.families
        total_elements := some stats.total_elements
        error := none }
  | .error msg =>
      { success := false
        duration_ms := some 0
        duration_ns := some 0
        error := some msg }

/-- `benchmark_go_parser` (parser_benchmark.py lines 142-191; the copy in
parser_benchmark_php.py lines 269-318 is identical).  `binaryExists`
models `os.path.exists(GO_PARSER_BINARY)`, `jsonLoads` models
`json.loads` on the subprocess stdout, `outcome` the subprocess call. -/
def benchmarkGoParser (binaryExists : Bool)
    (jsonLoads : String → Except String Result) (outcome : ProcOutcome) :
    Result :=
  if !binaryExists then
    { success := false
      duration_ms := some 0
      duration_ns := some 0
      error := some "Go parser binary not found" }
  else
    match outcome with
    | .done rc _stdout stderr =>
        if rc ≠ 0 then
          { success := false
            duration_ms := some 0
            duration_ns := some 0
            error := some (if stderr = "" then "Unknown error" else stderr) }
        else
          match jsonLoads _stdout with
          | .ok data => data
          | .error e =>
              { success := false
                duration_ms := some 0
                duration_ns := some 0
                error := some ("JSON decode error: " ++ e) }
    | .timeout =>
        { success := false
          duration_ms := some 0
          duration_ns := some 0
          error := some "Timeout (exceeded 5 minutes)" }
    | .exc msg =>
        { success := false
          duration_ms := some 0
          duration_ns := some 0
          error := some msg }

/-- `benchmark_php_parser` (parser_benchmark_php.py lines 217-266).
Identical to the Go runner except for the missing-script message and the
JSON decode handler, which appends `result.stdout[:200]` (Python slices
strings by code point, modelled by `List.take` on the character data). -/
def benchmarkPhpParser (scriptExists : Bool)
    (jsonLoads : String → Except String Result) (outcome : ProcOutcome) :
    Result :=
  if !scriptExists then
    { success := false
      duration_ms := some 0
      duration_ns := some 0
      error := some "PHP benchmark script not found" }
  else
    match outcome with
    | .done rc _stdout stderr =>
        if rc ≠ 0 then
          { success := false
            duration_ms := some 0
            duration_ns := some 0
            error := some (if stderr = "" then "Unknown error" else stderr) }
        else
          match jsonLoads _stdout with
          | .ok data => data
          | .error e =>
              { success := false
                duration_ms := some 0
                duration_ns := some 0
                error := some ("JSON decode error: " ++ e ++ ". Output: " ++
                  String.mk (_stdout.data.take 200)) }
    | .timeout =>
        { success := false
          duration_ms := some 0
          duration_ns := some 0
          error := some "Timeout (exceeded 5 minutes)" }
    | .exc msg =>
        { success := false
          duration_ms := some 0
          duration_ns := some 0
          error := some msg }

/-- Round to the nearest integer, ties to even — the rounding used by
Python `format(x, ".2f")`.  The fractional part `q - ⌊q⌋` is compared
with `1/2` through the integer `2 * (q.num - ⌊q⌋ * q.den)` versus
`q.den`, keeping the definition kernel-computable. -/
def roundHalfEven (q : ℚ) : ℤ :=
  let f := q.floor
  let frac2 : ℤ := 2 * (q.num - f * (q.den : ℤ))
  if frac2 < (q.den : ℤ) then f
  else if (q.den : ℤ) < frac2 then f + 1
  else if f % 2 = 0 then f else f + 1

/-- Left-pad a sub-hundred numeral to two digits. -/
def twoDigits (n : ℕ) : String :=
  if n < 10 then "0" ++ toString n else toString n

/-- `f"{q:.2f}"` for a nonnegative rational. -/
def formatFixed2Nonneg (q : ℚ) : String :=
  let n : ℤ := roundHalfEven (q * 100)
  toString (n / 100) ++ "." ++ twoDigits (n % 100).toNat

/-- `f"{q:.2f}"`. -/
def formatFixed2 (q : ℚ) : String :=
  if q < 0 then "-" ++ formatFixed2Nonneg (-q) else formatFixed2Nonneg q

/-- `format_speedup` (parser_benchmark.py lines 204-209 and
parser_benchmark_php.py lines 331-336, identical up to the name of the
second parameter): `"N/A"` when `go_time == 0`, otherwise
`f"{other_time / go_time:.2f}x"`. -/
def format_speedup (go_time other_time : ℚ) : String :=
  if go_time = 0 then "N/A"
  else formatFixed2 (other_time / go_time) ++ "x"

/-- The summary-table speedup cell (parser_benchmark.py lines 320-323):
`format_speedup(go, python)` when both Results succeeded, else `"N/A"`.
The `getD 0` stands for the direct key access `['duration_ms']`, reached
only when the Result succeeded and therefore carries the key. -/
def summary_speedup (python_result go_result : Result) : String :=
  if python_result.success && go_result.success then
    format_speedup (go_result.duration_ms.getD 0) (python_result.duration_ms.getD 0)
  else "N/A"

/-- A per-implementation time cell of the summary table
(parser_benchmark.py lines 306-318, parser_benchmark_php.py lines
474-486): the formatted duration on success, `"ERROR"` otherwise. -/
def summary_time_cell (r : Result) : String :=
  if r.success then formatFixed2 (r.duration_ms.getD 0) else "ERROR"

/-- The fixed candidate corpus (`GEDCOM_FILES`, parser_benchmark.py
lines 31-37, identical in parser_benchmark_php.py lines 24-30). -/
def GEDCOM_FILES : List String :=
  ["xavier.ged", "tree1.ged", "gracis.ged", "pres2020.ged", "royal92.ged"]

/-- The corpus-filtering loop of `main` (parser_benchmark.py lines
238-244): returns the available files in candidate order together with
the number of `⚠ Warning: ... not found, skipping` lines printed, one
per missing candidate. -/
def find_available_files (fileExists : String → Bool) :
    List String → List String × ℕ
  | [] => ([], 0)
  | f :: rest =>
      let (av, w) := find_available_files fileExists rest
      if fileExists f then (f :: av, w) else (av, w + 1)

/-- The two scratch artifacts of the Harness Builder: the intermediate
source `/tmp/go_parser_benchmark.go` and the compiled binary
`/tmp/go_parser_benchmark`.  A `true` flag means the file exists. -/
structure Scratch where
  goSrc : Bool
  binary : Bool
deriving Repr, DecidableEq

/-- How the `main` of parser_benchmark.py ends: `sys.exit(1)` after a
failed build, `sys.exit(1)` on an empty available corpus, or normal
completion. -/
inductive ExitKind where
  | buildFailure
  | emptyCorpus
  | normal
deriving Repr, DecidableEq

/-- Environment of one run of `main` (parser_benchmark.py): whether
`go build` succeeds, which corpus files exist, and the Result each
runner produces for a given file. -/
structure MainEnv where
  buildOk : Bool
  fileExists : String → Bool
  pythonRun : String → Result
  goRun : String → Result

/-- Observable trace of one run of `main`: how the process exited,
which scratch artifacts still exist at process exit, the available
corpus, the number of missing-file warnings, and the accumulated
(file, python Result, go Result) records. -/
structure MainTrace where
  exitKind : ExitKind
  scratch : Scratch
  available : List String
  warnings : ℕ
  records : List (String × Result × Result)
deriving Repr

/-- `main` of parser_benchmark.py (lines 223-385).  `build_go_parser`
first writes the intermediate Go source, then builds the binary; on
build failure `main` calls `sys.exit(1)` (line 233).  An empty
available corpus calls `sys.exit(1)` (line 248).  The cleanup that
removes both scratch files (lines 381-385) sits at the end of `main`
and is reached only on normal completion — there is no `try/finally`
around the run.  (`main` of parser_benchmark_php.py, lines 350-557,
has the same build/filter/abort/cleanup structure.) -/
def mainRun (env : MainEnv) : MainTrace :=
  let scratchAfterBuild : Scratch := { goSrc := true, binary := env.buildOk }
  if !env.buildOk then
    { exitKind := .buildFailure, scratch := scratchAfterBuild,
      available := [], warnings := 0, records := [] }
  else
    let (available, warnings) := find_available_files env.fileExists GEDCOM_FILES
    if available.isEmpty then
      { exitKind := .emptyCorpus, scratch := scratchAfterBuild,
        available := available, warnings := warnings, records := [] }
    else
      { exitKind := .normal, scratch := { goSrc := false, binary := false },
        available := available, warnings := warnings,
        records := available.map (fun f => (f, env.pythonRun f, env.goRun f)) }

/-- The version comparison of `check_php_version`
(parser_benchmark_php.py line 47): `major > 8 or (major == 8 and
minor >= 3)`, applied to the major/minor numbers extracted from the
first line of `php --version`. -/
def php_version_ok (major minor : ℕ) : Bool :=
  decide (8 < major ∨ (major = 8 ∧ 3 ≤ minor))

/-- The dictionary stored for the PHP implementation when
`php_available` is false (parser_benchmark_php.py line 442): only the
`success` and `error` keys are written. -/
def unavailable_php_result : Result :=
  { success := false, error := some "PHP 8.4+ not available" }

/-- One Run Record of the PHP script: the Results of both
implementations for one corpus file. -/
structure FileRun where
  filename : String
  go : Result
  php : Result
deriving Repr, DecidableEq

/-- The measurement loop of `main` in parser_benchmark_php.py (lines
421-457).  Besides the accumulated records it returns the list of
files for which `benchmark_php_parser` was actually invoked, so that
"never invoked" is an explicit part of the trace. -/
def run_matrix (php_available : Bool) (goRun phpRun : String → Result) :
    List String → List FileRun × List String
  | [] => ([], [])
  | f :: rest =>
      let go_result := goRun f
      let (php_result, invoked) :=
        if php_available then (phpRun f, [f])
        else (unavailable_php_result, ([] : List String))
      let (rs, invs) := run_matrix php_available goRun phpRun rest
      ({ filename := f, go := go_result, php := php_result } :: rs,
        invoked ++ invs)

/-- A `json.loads` behaviour that fails on every input with the
diagnostic CPython emits for non-JSON text. -/
def jsonLoads_fail : String → Except String Result :=
  fun _ => .error "Expecting value: line 1 column 1 (char 0)"

/-- A successful Result in the shape the embedded Go driver prints. -/
def go_ok_result : Result :=
  { success := true, duration_ms := some 5, duration_ns := some 5000000,
    error := some "", individuals := some 10, families := some 3,
    errors := some 0 }

/-- Constant-runner fixtures used by concrete instances below. -/
def goRun_const : String → Result := fun _ => go_ok_result

/-- See `goRun_const`. -/
def phpRun_const : String → Result := fun _ => go_ok_result

/-- A successful driver-shaped Result with a 1 ms duration. -/
def go_one_result : Result :=
  { success := true, duration_ms := some 1, duration_ns := some 1000000,
    error := some "", individuals := some 1, families := some 1,
    errors := some 0 }

/-- The Python-runner Result for a run that parsed an empty file in a
measured 0 ms. -/
def python_zero_result : Result := benchmarkPythonParser (.ok ⟨0, 0, 0⟩) 0

/-- A syntactically valid JSON line whose decoded dictionary sets
`success` to true while also carrying a non-empty `error` string. -/
def inconsistent_stdout : String :=
  "\x7b\"success\": true, \"duration_ms\": 1, \"duration_ns\": 1000000, " ++
  "\"error\": \"boom\", \"individuals\": 1, \"families\": 1\x7d"

/-- The dictionary `json.loads` produces for `inconsistent_stdout`. -/
def inconsistent_result : Result :=
  { success := true, duration_ms := some 1, duration_ns := some 1000000,
    error := some "boom", individuals := some 1, families := some 1 }

/-- A `json.loads` behaviour agreeing with CPython's `json.loads` on
`inconsistent_stdout` (which decodes to `inconsistent_result`) and
failing on everything else. -/
def jsonLoads_inconsistent : String → Except String Result :=
  fun s =>
    if s = inconsistent_stdout then .ok inconsistent_result
    else .error "Expecting value: line 1 column 1 (char 0)"

/-- `starts_with l p` is true when `p` is an initial segment of `l`. -/
def starts_with : List Char → List Char → Bool
  | _, [] => true
  | [], _ :: _ => false
  | a :: l, b :: m => a == b && starts_with l m

/-- `contains_sub l s` is true when `s` occurs contiguously inside
`l` — the formal reading of one string "containing" another. -/
def contains_sub : List Char → List Char → Bool
  | [], sub => starts_with [] sub
  | l@(_ :: t), sub => starts_with l sub || contains_sub t sub

/-- The fault cases of one subprocess-runner call: missing
executable/script, timeout, any other raised exception, a non-zero
exit code, or a zero exit code whose stdout `json.loads` rejects.
The one remaining case — exit code 0 with decodable stdout — is the
pass-through of the decoded dictionary. -/
def invocation_fault (exeExists : Bool)
    (jsonLoads : String → Except String Result) (o : ProcOutcome) : Prop :=
  exeExists = false ∨ o = .timeout ∨ (∃ m, o = .exc m) ∨
    (∃ rc out err, o = .done rc out err ∧ rc ≠ 0) ∨
    (∃ out err e, o = .done 0 out err ∧ jsonLoads out = .error e)

/-- The failure shape every runner-authored handler produces. -/
def handler_failure (s : String) : Result :=
  { success := false, duration_ms := some 0, duration_ns := some 0,
    error := some s }

/-- The environment of a run whose `go build` step fails. -/
def failing_build_env : MainEnv :=
  { buildOk := false, fileExists := fun _ => true,
    pythonRun := fun _ => python_zero_result, goRun := fun _ => go_ok_result }

/-- The environment of a run that completes normally. -/
def normal_env : MainEnv :=
  { buildOk := true, fileExists := fun _ => true,
    pythonRun := fun _ => python_zero_result, goRun := fun _ => go_ok_result }

/-- The environment of a run in which no candidate corpus file exists. -/
def empty_corpus_env : MainEnv :=
  { buildOk := true, fileExists := fun _ => false,
    pythonRun := fun _ => python_zero_result, goRun := fun _ => go_ok_result }

/-- Batteries' computable `Rat.floor` agrees with the `⌊⌋` of the
`FloorRing` instance. -/
theorem rat_floor_eq (q : ℚ) : q.floor = ⌊q⌋ :=
  (Rat.floor_def' q).trans Rat.floor_def.symm

/-- Truncating and rounding differ by at most one. -/
theorem floor_round_abs_le (x : ℚ) : |⌊x⌋ - round x| ≤ 1 := by
  have h1 : ⌊x⌋ ≤ round x := by
    rw [round_eq]
    exact Int.floor_le_floor (by linarith)
  have h2 : round x ≤ ⌊x⌋ + 1 := by
    rw [round_eq]
    have h := Int.floor_le_floor (show x + 1 / 2 ≤ x + 1 by linarith)
    rwa [Int.floor_add_one] at h
  rw [abs_le]
  omega

/-- A string ending in the letter x is not the sentinel. -/
theorem append_x_ne_NA (s : String) : s ++ "x" ≠ "N/A" := by
  intro h
  have hd := congrArg String.data h
  rw [String.data_append, show ("x" : String).data = [Char.ofNat 120] from rfl] at hd
  have h2 := congrArg List.getLast? hd
  rw [List.getLast?_concat] at h2
  exact absurd h2 (by decide)

/-- Appending to a non-empty string keeps it non-empty. -/
theorem append_ne_empty (s t : String) (hs : s ≠ "") : s ++ t ≠ "" := by
  intro h
  have hd := congrArg String.data h
  rw [String.data_append] at hd
  exact hs (String.ext (List.append_eq_nil.mp hd).1)

/-- On each fault case, the Go runner returns a handler-authored
failure record, whose message is non-empty except possibly on the
generic exception path (where it equals the exception text). -/
theorem go_fault_shape (b : Bool) (j : String → Except String Result)
    (o : ProcOutcome) (h : invocation_fault b j o) :
    ∃ s, benchmarkGoParser b j o = handler_failure s ∧
      ((∀ m, o ≠ ProcOutcome.exc m) → s ≠ "") := by
  cases b with
  | false =>
      exact ⟨"Go parser binary not found", rfl, fun _ => by decide⟩
  | true =>
      rcases h with hb | ht | ⟨m, hm⟩ | ⟨rc, out, err, ho, hrc⟩ | ⟨out, err, e, ho, hj⟩
      · cases hb
      · subst ht
        exact ⟨"Timeout (exceeded 5 minutes)", rfl, fun _ => by decide⟩
      · subst hm
        exact ⟨m, rfl, fun hne => absurd rfl (hne m)⟩
      · subst ho
        refine ⟨if err = "" then "Unknown error" else err, ?_, fun _ => ?_⟩
        · simp [benchmarkGoParser, handler_failure, hrc]
        · by_cases herr : err = ""
          · rw [if_pos herr]; decide
          · rwa [if_neg herr]
      · subst ho
        refine ⟨"JSON decode error: " ++ e, ?_, fun _ => ?_⟩
        · simp [benchmarkGoParser, handler_failure, hj]
        · exact append_ne_empty _ _ (by decide)

/-- The PHP-runner analogue of `go_fault_shape`. -/
theorem php_fault_shape (b : Bool) (j : String → Except String Result)
    (o : ProcOutcome) (h : invocation_fault b j o) :
    ∃ s, benchmarkPhpParser b j o = handler_failure s ∧
      ((∀ m, o ≠ ProcOutcome.exc m) → s ≠ "") := by
  cases b with
  | false =>
      exact ⟨"PHP benchmark script not found", rfl, fun _ => by decide⟩
  | true =>
      rcases h with hb | ht | ⟨m, hm⟩ | ⟨rc, out, err, ho, hrc⟩ | ⟨out, err, e, ho, hj⟩
      · cases hb
      · subst ht
        exact ⟨"Timeout (exceeded 5 minutes)", rfl, fun _ => by decide⟩
      · subst hm
        exact ⟨m, rfl, fun hne => absurd rfl (hne m)⟩
      · subst ho
        refine ⟨if err = "" then "Unknown error" else err, ?_, fun _ => ?_⟩
        · simp [benchmarkPhpParser, handler_failure, hrc]
        · by_cases herr : err = ""
          · rw [if_pos herr]; decide
          · rwa [if_neg herr]
      · subst ho
        refine ⟨"JSON decode error: " ++ e ++ ". Output: " ++
          String.mk (out.data.take 200), ?_, fun _ => ?_⟩
        · simp [benchmarkPhpParser, handler_failure, hj]
        · exact append_ne_empty _ _ (append_ne_empty _ _ (append_ne_empty _ _ (by decide)))

/-- The corpus-filtering loop returns exactly the existing candidates
in order, and one warning per missing candidate. -/
theorem find_available_files_spec (p : String → Bool) (cands : List String) :
    (find_available_files p cands).1 = cands.filter p ∧
    (find_available_files p cands).2 =
      (cands.filter (fun f => !p f)).length := by
  induction cands with
  | nil => exact ⟨rfl, rfl⟩
  | cons f rest ih =>
      obtain ⟨h1, h2⟩ := ih
      by_cases hf : p f
      · simp [find_available_files, hf, List.filter_cons, h1, h2]
      · simp [find_available_files, hf, List.filter_cons, h1, h2]

/-- C1 (counterexample): with a preflight version of 8.2 (below the
8.3 minimum) the coordinator of parser_benchmark_php.py still records
a Result for the PHP implementation in the Run Record of every file —
the synthetic failure dictionary of line 442 — and the per-file
summary row still carries an `"ERROR"` cell for it, contradicting "no
Result for it is recorded … and it appears in no per-file row". -/
theorem preflight_unavailable_recorded_cx :
    php_version_ok 8 2 = false ∧
    (run_matrix (php_version_ok 8 2) goRun_const phpRun_const
      ["xavier.ged"]).1 =
      [{ filename := "xavier.ged", go := go_ok_result,
         php := unavailable_php_result }] ∧
    (run_matrix (php_version_ok 8 2) goRun_const phpRun_const
      ["xavier.ged"]).2 = [] ∧
    unavailable_php_result.success = false ∧
    summary_time_cell unavailable_php_result = "ERROR" :=
  ⟨by decide, by decide, by decide, by decide, by decide⟩

/-- C1 (amended): when Preflight marks PHP unavailable, the PHP runner
is indeed never invoked, but a synthetic failure Result (`success =
false`, `error = "PHP 8.4+ not available"`) is recorded in every
file's Run Record and each per-file summary row shows `"ERROR"` in
the PHP column. -/
theorem preflight_unavailable_behavior (goRun phpRun : String → Result)
    (files : List String) :
    (run_matrix false goRun phpRun files).2 = [] ∧
    (run_matrix false goRun phpRun files).1.map FileRun.php =
      files.map (fun _ => unavailable_php_result) ∧
    ∀ r ∈ (run_matrix false goRun phpRun files).1,
      summary_time_cell r.php = "ERROR" := by
  induction files with
  | nil => exact ⟨rfl, rfl, fun r hr => absurd hr (List.not_mem_nil r)⟩
  | cons f rest ih =>
      obtain ⟨h1, h2, h3⟩ := ih
      refine ⟨?_, ?_, ?_⟩
      · simp [run_matrix, h1]
      · simp [run_matrix, h2]
      · intro r hr
        simp only [run_matrix, if_neg Bool.false_ne_true, List.mem_cons] at hr
        rcases hr with hr | hr
        · subst hr
          exact (by decide : summary_time_cell unavailable_php_result = "ERROR")
        · exact h3 r hr

/-- C1 (witness). -/
theorem preflight_unavailable_behavior_w :
    (run_matrix false goRun_const phpRun_const ["tree1.ged"]).2 = [] ∧
    summary_time_cell
      ({ filename := "tree1.ged", go := go_ok_result,
         php := unavailable_php_result } : FileRun).php = "ERROR" := by
  obtain ⟨h1, -, h3⟩ :=
    preflight_unavailable_behavior goRun_const phpRun_const ["tree1.ged"]
  refine ⟨h1, h3 _ ?_⟩
  have hr : (run_matrix false goRun_const phpRun_const ["tree1.ged"]).1 =
      [{ filename := "tree1.ged", go := go_ok_result,
         php := unavailable_php_result }] := by decide
  rw [hr]
  exact List.mem_singleton_self _

/-- C2 (counterexample): both Results succeeded, the numerator
duration (`python_time`) is exactly zero and the denominator
(`go_time`) is positive, yet the summary-table speedup is the string
`"0.00x"`, not `"N/A"` — `format_speedup` guards only against a zero
first argument. -/
theorem speedup_zero_numerator_cx :
    python_zero_result.success = true ∧ go_one_result.success = true ∧
    python_zero_result.duration_ms = some 0 ∧
    go_one_result.duration_ms = some 1 ∧
    summary_speedup python_zero_result go_one_result = "0.00x" ∧
    summary_speedup python_zero_result go_one_result ≠ "N/A" := by
  have h : summary_speedup python_zero_result go_one_result = "0.00x" := by
    norm_num [summary_speedup, python_zero_result, go_one_result,
      benchmarkPythonParser, format_speedup, formatFixed2, formatFixed2Nonneg]
    decide
  exact ⟨by decide, by decide, by decide, by decide, h, by rw [h]; decide⟩

/-- C2 (amended): the speedup is reported as `"N/A"` exactly when the
denominator duration (the first argument, `go_time`) is zero, or — at
the summary-table call site — when either Result failed; a zero
numerator with a non-zero denominator produces a formatted ratio
ending in `"x"` instead. -/
theorem speedup_na_iff :
    (∀ p : ℚ, format_speedup 0 p = "N/A") ∧
    (∀ g p : ℚ, g ≠ 0 → format_speedup g p ≠ "N/A") ∧
    (∀ r1 r2 : Result, r1.success = false ∨ r2.success = false →
      summary_speedup r1 r2 = "N/A") := by
  refine ⟨fun p => by simp [format_speedup], fun g p hg => ?_,
    fun r1 r2 h => ?_⟩
  · rw [format_speedup, if_neg hg]
    exact append_x_ne_NA _
  · rcases h with h | h <;> simp [summary_speedup, h]

/-- C2 (witness). -/
theorem speedup_na_iff_w :
    format_speedup 0 5 = "N/A" ∧ format_speedup 2 5 ≠ "N/A" ∧
    summary_speedup (handler_failure "boom") go_one_result = "N/A" := by
  obtain ⟨h1, h2, h3⟩ := speedup_na_iff
  exact ⟨h1 5, h2 2 5 (by norm_num), h3 _ _ (Or.inl rfl)⟩

/-- C3 (counterexample): when the Go runner's `json.loads` fails, the
resulting error string is `"JSON decode error: " + str(e)` alone — it
does not contain the offending standard-output text (nor its 200-char
truncation), contradicting "contains **both** a decode diagnostic and
a truncated sample" for every subprocess runner. -/
theorem decode_error_no_sample_cx :
    (benchmarkGoParser true jsonLoads_fail
      (.done 0 "This is not JSON output" "")).success = false ∧
    (benchmarkGoParser true jsonLoads_fail
      (.done 0 "This is not JSON output" "")).error =
      some "JSON decode error: Expecting value: line 1 column 1 (char 0)" ∧
    contains_sub
      "JSON decode error: Expecting value: line 1 column 1 (char 0)".data
      (String.mk ("This is not JSON output".data.take 200)).data = false :=
  ⟨by decide, by decide, by decide⟩

/-- C3 (amended): on a JSON decode failure the PHP runner's error
string contains the decode diagnostic followed by the first 200
characters of the offending stdout, while the Go runner's error
string contains the decode diagnostic only. -/
theorem decode_error_messages (j : String → Except String Result)
    (out err e : String) (hj : j out = .error e) :
    (benchmarkGoParser true j (.done 0 out err)).error =
      some ("JSON decode error: " ++ e) ∧
    (benchmarkPhpParser true j (.done 0 out err)).error =
      some ("JSON decode error: " ++ e ++ ". Output: " ++
        String.mk (out.data.take 200)) := by
  constructor
  · simp [benchmarkGoParser, hj]
  · simp [benchmarkPhpParser, hj]

/-- C3 (witness). -/
theorem decode_error_messages_w :
    (benchmarkGoParser true jsonLoads_fail (.done 0 "not json" "")).error =
      some ("JSON decode error: " ++
        "Expecting value: line 1 column 1 (char 0)") ∧
    (benchmarkPhpParser true jsonLoads_fail (.done 0 "not json" "")).error =
      some ("JSON decode error: " ++
        "Expecting value: line 1 column 1 (char 0)" ++ ". Output: " ++
        String.mk ("not json".data.take 200)) :=
  decode_error_messages jsonLoads_fail "not json" ""
    "Expecting value: line 1 column 1 (char 0)" rfl

/-- C4 (counterexample): when the build step fails, `main` exits via
`sys.exit(1)` at line 233, after `build_go_parser` already wrote the
intermediate Go source to the scratch location; the cleanup at lines
381-385 is never reached, so the scratch source file still exists at
process exit — contradicting "removed before the process ends" on
every exit path. -/
theorem cleanup_missed_on_build_failure_cx :
    (mainRun failing_build_env).exitKind = ExitKind.buildFailure ∧
    (mainRun failing_build_env).scratch.goSrc = true :=
  ⟨by decide, by decide⟩

/-- C4 (amended): the scratch artifacts are removed exactly when
`main` completes normally; a build-failure abort leaves the
intermediate source behind, and an empty-corpus abort leaves both the
source and the compiled binary behind. -/
theorem cleanup_only_on_normal_exit (env : MainEnv) :
    ((mainRun env).exitKind = ExitKind.normal →
      (mainRun env).scratch = { goSrc := false, binary := false }) ∧
    ((mainRun env).exitKind = ExitKind.buildFailure →
      (mainRun env).scratch = { goSrc := true, binary := false }) ∧
    ((mainRun env).exitKind = ExitKind.emptyCorpus →
      (mainRun env).scratch = { goSrc := true, binary := true }) := by
  rcases hfa : find_available_files env.fileExists GEDCOM_FILES with ⟨av, w⟩
  cases hb : env.buildOk with
  | false => simp [mainRun, hb]
  | true =>
      by_cases he : av.isEmpty <;>
        simp [mainRun, hb, hfa, he]

/-- C4 (witness). -/
theorem cleanup_only_on_normal_exit_w :
    (mainRun normal_env).exitKind = ExitKind.normal ∧
    (mainRun normal_env).scratch = { goSrc := false, binary := false } :=
  ⟨by decide, (cleanup_only_on_normal_exit normal_env).1 (by decide)⟩

/-- C5: every successful Result of the in-process Python runner
carries `duration_ms = delta ≥ 0` (the measured `perf_counter`
difference, nonnegative because the clock is monotone) and
`duration_ns = int(duration_ms * 1_000_000)`, which differs from
`round(duration_ms * 1_000_000)` by at most one nanosecond (the gap
between truncation and rounding — the claim's "within floating-point
tolerance"). -/
theorem python_success_duration (outcome : Except String PyParseStats)
    (delta : ℚ) (hd : 0 ≤ delta)
    (hs : (benchmarkPythonParser outcome delta).success = true) :
    ∃ d n, (benchmarkPythonParser outcome delta).duration_ms = some d ∧
      (benchmarkPythonParser outcome delta).duration_ns = some n ∧
      0 ≤ d ∧ |n - round (d * 1000000)| ≤ 1 := by
  match outcome with
  | .error msg => simp [benchmarkPythonParser] at hs
  | .ok stats =>
      refine ⟨delta, pyInt (delta * 1000000), rfl, rfl, hd, ?_⟩
      have hx : (0 : ℚ) ≤ delta * 1000000 := by positivity
      rw [pyInt, if_pos hx, rat_floor_eq]
      exact floor_round_abs_le _

/-- C5 (witness). -/
theorem python_success_duration_w :
    (0 : ℚ) ≤ 0 ∧ (benchmarkPythonParser (.ok ⟨1, 2, 3⟩) 0).success = true ∧
    ∃ d n, (benchmarkPythonParser (.ok ⟨1, 2, 3⟩) 0).duration_ms = some d ∧
      (benchmarkPythonParser (.ok ⟨1, 2, 3⟩) 0).duration_ns = some n ∧
      0 ≤ d ∧ |n - round (d * 1000000)| ≤ 1 :=
  ⟨le_refl 0, by decide,
    python_success_duration (.ok ⟨1, 2, 3⟩) 0 (le_refl 0) (by decide)⟩

/-- C6 (counterexample): a subprocess that exits 0 and prints a valid
JSON object with `success: true` and a non-empty `error` is passed
through verbatim by the Go runner, producing a Result with
`success = true` and a non-empty error string — the two fields set
inconsistently, contradicting "never set inconsistently" for every
Result produced by a Runner. -/
theorem passthrough_inconsistent_cx :
    (benchmarkGoParser true jsonLoads_inconsistent
      (.done 0 inconsistent_stdout "")).success = true ∧
    (benchmarkGoParser true jsonLoads_inconsistent
      (.done 0 inconsistent_stdout "")).error = some "boom" ∧
    "boom" ≠ "" :=
  ⟨by decide, by decide, by decide⟩

/-- C6 (amended): Results authored by the harness itself satisfy the
invariant — the Python runner on success has `error = None` and both
counts present, and on failure has `error` set to the exception text
with counts absent; every subprocess-runner handler failure has
`success = false`, `error` set, counts absent, and a non-empty error
on all paths except the generic exception handler (whose message is
the exception's text).  Results decoded from subprocess stdout are
returned verbatim, so their consistency is the subprocess's
responsibility, not the Runner's. -/
theorem result_error_invariant :
    (∀ (o : Except String PyParseStats) (delta : ℚ),
      ((benchmarkPythonParser o delta).success = true →
        (benchmarkPythonParser o delta).error = none ∧
        (benchmarkPythonParser o delta).individuals.isSome = true ∧
        (benchmarkPythonParser o delta).families.isSome = true) ∧
      ((benchmarkPythonParser o delta).success = false →
        ∃ m, o = .error m ∧ (benchmarkPythonParser o delta).error = some m ∧
          (benchmarkPythonParser o delta).individuals = none ∧
          (benchmarkPythonParser o delta).families = none)) ∧
    (∀ (b : Bool) (j : String → Except String Result) (o : ProcOutcome),
      invocation_fault b j o →
        (benchmarkGoParser b j o).success = false ∧
        (benchmarkGoParser b j o).error.isSome = true ∧
        (benchmarkGoParser b j o).individuals = none ∧
        (benchmarkGoParser b j o).families = none ∧
        ((∀ m, o ≠ ProcOutcome.exc m) →
          (benchmarkGoParser b j o).error ≠ some "")) := by
  constructor
  · intro o delta
    match o with
    | .ok stats =>
        exact ⟨fun _ => ⟨rfl, rfl, rfl⟩,
          fun h => by simp [benchmarkPythonParser] at h⟩
    | .error m =>
        exact ⟨fun h => by simp [benchmarkPythonParser] at h,
          fun _ => ⟨m, rfl, rfl, rfl, rfl⟩⟩
  · intro b j o h
    obtain ⟨s, hs, hne⟩ := go_fault_shape b j o h
    rw [hs]
    exact ⟨rfl, rfl, rfl, rfl,
      fun hno hc => hne hno (Option.some_injective _ hc)⟩

/-- C6 (witness). -/
theorem result_error_invariant_w :
    (benchmarkPythonParser (.ok ⟨1, 1, 1⟩) 1).error = none ∧
    (benchmarkGoParser false jsonLoads_fail ProcOutcome.timeout).success
      = false := by
  refine ⟨((result_error_invariant.1 (.ok ⟨1, 1, 1⟩) 1).1 (by decide)).1, ?_⟩
  exact (result_error_invariant.2 false jsonLoads_fail .timeout
    (Or.inl rfl)).1

/-- C7: a subprocess call that raises `TimeoutExpired` (the 300-second
budget, after which `subprocess.run` kills the child) makes both
subprocess runners return the failure Result whose error is exactly
`"Timeout (exceeded 5 minutes)"`; the runners call the subprocess
once and return directly from the handler, so no retry happens. -/
theorem timeout_exact_result (j jp : String → Except String Result) :
    benchmarkGoParser true j ProcOutcome.timeout =
      handler_failure "Timeout (exceeded 5 minutes)" ∧
    benchmarkPhpParser true jp ProcOutcome.timeout =
      handler_failure "Timeout (exceeded 5 minutes)" :=
  ⟨rfl, rfl⟩

/-- C8: both subprocess runners are total Lean functions, and on every
invocation fault — missing executable or script, timeout, any raised
exception, non-zero exit, or undecodable stdout — they return a
failure Result whose error field is set, rather than letting any
exception propagate to the coordinator. -/
theorem runner_fault_total :
    (∀ (b : Bool) (j : String → Except String Result) (o : ProcOutcome),
      invocation_fault b j o →
        (benchmarkGoParser b j o).success = false ∧
        ∃ s, (benchmarkGoParser b j o).error = some s) ∧
    (∀ (b : Bool) (j : String → Except String Result) (o : ProcOutcome),
      invocation_fault b j o →
        (benchmarkPhpParser b j o).success = false ∧
        ∃ s, (benchmarkPhpParser b j o).error = some s) := by
  refine ⟨fun b j o h => ?_, fun b j o h => ?_⟩
  · obtain ⟨s, hs, -⟩ := go_fault_shape b j o h
    rw [hs]
    exact ⟨rfl, s, rfl⟩
  · obtain ⟨s, hs, -⟩ := php_fault_shape b j o h
    rw [hs]
    exact ⟨rfl, s, rfl⟩

/-- C8 (witness). -/
theorem runner_fault_total_w :
    (benchmarkGoParser true jsonLoads_fail ProcOutcome.timeout).success
      = false ∧
    ∃ s, (benchmarkGoParser true jsonLoads_fail
      ProcOutcome.timeout).error = some s :=
  runner_fault_total.1 true jsonLoads_fail .timeout (Or.inr (Or.inl rfl))

/-- C9: the available-file list is exactly the candidate list filtered
by existence, in candidate order, with one warning counted per
missing candidate; and when the build succeeded but the available
list is empty, `main` aborts with the empty-corpus exit before
recording any measurement. -/
theorem corpus_filtering (p : String → Bool) (cands : List String)
    (env : MainEnv) (hb : env.buildOk = true) :
    (find_available_files p cands).1 = cands.filter p ∧
    (find_available_files p cands).2 =
      (cands.filter (fun f => !p f)).length ∧
    (mainRun env).available = GEDCOM_FILES.filter env.fileExists ∧
    ((mainRun env).available = [] →
      (mainRun env).exitKind = ExitKind.emptyCorpus ∧
      (mainRun env).records = []) := by
  obtain ⟨h1, h2⟩ := find_available_files_spec p cands
  rcases hfa : find_available_files env.fileExists GEDCOM_FILES with ⟨av, w⟩
  have g1 := (find_available_files_spec env.fileExists GEDCOM_FILES).1
  rw [hfa] at g1
  have hm : mainRun env =
      (if av.isEmpty then
        { exitKind := ExitKind.emptyCorpus,
          scratch := { goSrc := true, binary := true },
          available := av, warnings := w, records := [] }
      else
        { exitKind := ExitKind.normal,
          scratch := { goSrc := false, binary := false },
          available := av, warnings := w,
          records := av.map (fun f => (f, env.pythonRun f, env.goRun f)) }) := by
    unfold mainRun
    rw [hb, hfa]
    rfl
  by_cases he : av.isEmpty
  · rw [if_pos he] at hm
    refine ⟨h1, h2, ?_, fun _ => ⟨?_, ?_⟩⟩
    · rw [hm]; exact g1
    · rw [hm]
    · rw [hm]
  · rw [if_neg he] at hm
    refine ⟨h1, h2, ?_, fun hav => ?_⟩
    · rw [hm]; exact g1
    · exfalso
      rw [hm] at hav
      have hav2 : av = [] := hav
      exact he (by rw [hav2]; rfl)

/-- C9 (witness). -/
theorem corpus_filtering_w :
    (mainRun empty_corpus_env).exitKind = ExitKind.emptyCorpus ∧
    (mainRun empty_corpus_env).records = [] :=
  (corpus_filtering (fun _ => false) [] empty_corpus_env rfl).2.2.2
    (by decide)

/-- C10: every failure Result authored by one of the harness's own
handlers — the Python runner's exception handler and every fault path
of the two subprocess runners — carries `duration_ms = 0` and
`duration_ns = 0`, so a zero duration together with `success = false`
marks an unmeasured run. -/
theorem handler_failures_zero_duration :
    (∀ (msg : String) (delta : ℚ),
      (benchmarkPythonParser (.error msg) delta).success = false ∧
      (benchmarkPythonParser (.error msg) delta).duration_ms = some 0 ∧
      (benchmarkPythonParser (.error msg) delta).duration_ns = some 0) ∧
    (∀ (b : Bool) (j : String → Except String Result) (o : ProcOutcome),
      invocation_fault b j o →
        (benchmarkGoParser b j o).success = false ∧
        (benchmarkGoParser b j o).duration_ms = some 0 ∧
        (benchmarkGoParser b j o).duration_ns = some 0) ∧
    (∀ (b : Bool) (j : String → Except String Result) (o : ProcOutcome),
      invocation_fault b j o →
        (benchmarkPhpParser b j o).success = false ∧
        (benchmarkPhpParser b j o).duration_ms = some 0 ∧
        (benchmarkPhpParser b j o).duration_ns = some 0) := by
  refine ⟨fun msg delta => ⟨rfl, rfl, rfl⟩,
    fun b j o h => ?_, fun b j o h => ?_⟩
  · obtain ⟨s, hs, -⟩ := go_fault_shape b j o h
    rw [hs]
    exact ⟨rfl, rfl, rfl⟩
  · obtain ⟨s, hs, -⟩ := php_fault_shape b j o h
    rw [hs]
    exact ⟨rfl, rfl, rfl⟩

/-- C10 (witness). -/
theorem handler_failures_zero_duration_w :
    (benchmarkGoParser true jsonLoads_fail (.done 1 "" "boom")).success
      = false ∧
    (benchmarkGoParser true jsonLoads_fail
      (.done 1 "" "boom")).duration_ms = some 0 ∧
    (benchmarkGoParser true jsonLoads_fail
      (.done 1 "" "boom")).duration_ns = some 0 :=
  handler_failures_zero_duration.2.1 true jsonLoads_fail
    (.done 1 "" "boom")
    (Or.inr (Or.inr (Or.inr (Or.inl ⟨1, "", "boom", rfl, by decide⟩))))

end ParserBenchmark
